import Mathlib

/-!
Shallow embedding of the guesthouse safety/cost assessment engine
(`app/safety.py`, `app/external_services.py`, `app/config.py`).

Money amounts are modelled as rationals (`ℚ`): every cost in the default
configuration is an integer, but the handrail lines multiply by the average
run length 3.5 and the building-type multipliers are 0.9 / 1.0 / 1.1.
Python's `round` (banker's rounding, round half to even) is modelled by
`pyRound`.  Counts are `ℕ` (the calling layer coerces them with `int(...)`
and the engine assumes non-negative inputs); the running score is `ℤ`
because it can pass below zero before the final clamp.

The sole impurity of `calculate_baseline_score` is `datetime.now().year`,
which we expose as an explicit `currentYear` argument; it feeds only the
building-age text of the old-building issue string.
-/

namespace Guesthouse

/-- Python's built-in `round` to an integer: round half to even. -/
def pyRound (x : ℚ) : ℤ :=
  if x - ⌊x⌋ < 1/2 then ⌊x⌋
  else if 1/2 < x - ⌊x⌋ then ⌊x⌋ + 1
  else if ⌊x⌋ % 2 = 0 then ⌊x⌋ else ⌊x⌋ + 1

/-- `EQUIPMENT_COSTS` from `app/config.py` (TND, material only). -/
structure EquipmentCosts where
  fire_extinguisher : ℚ
  smoke_detector : ℚ
  emergency_exit_sign : ℚ
  first_aid_kit : ℚ
  stair_handrail : ℚ
  slip_resistant_coating : ℚ

def EQUIPMENT_COSTS : EquipmentCosts :=
  { fire_extinguisher := 100
    smoke_detector := 50
    emergency_exit_sign := 65
    first_aid_kit := 130
    stair_handrail := 150
    slip_resistant_coating := 250 }

/-- `INSTALLATION_COSTS` from `app/config.py`. -/
structure InstallationCosts where
  fire_extinguisher : ℚ
  smoke_detector : ℚ
  emergency_exit_sign : ℚ
  first_aid_kit : ℚ
  stair_handrail : ℚ
  slip_resistant_coating : ℚ

def INSTALLATION_COSTS : InstallationCosts :=
  { fire_extinguisher := 20
    smoke_detector := 15
    emergency_exit_sign := 35
    first_aid_kit := 0
    stair_handrail := 80
    slip_resistant_coating := 150 }

/-- `COMPLIANCE_COSTS` from `app/config.py`. -/
structure ComplianceCosts where
  fire_safety_inspection : ℚ
  safety_certification : ℚ
  annual_fire_inspection : ℚ

def COMPLIANCE_COSTS : ComplianceCosts :=
  { fire_safety_inspection := 200
    safety_certification := 150
    annual_fire_inspection := 100 }

/-- `MAINTENANCE_COSTS` from `app/config.py` (annual). -/
structure MaintenanceCosts where
  fire_extinguisher : ℚ
  smoke_detector : ℚ
  emergency_exit_sign : ℚ
  first_aid_kit : ℚ
  stair_handrail : ℚ
  slip_resistant_coating : ℚ

def MAINTENANCE_COSTS : MaintenanceCosts :=
  { fire_extinguisher := 15
    smoke_detector := 8
    emergency_exit_sign := 10
    first_aid_kit := 50
    stair_handrail := 20
    slip_resistant_coating := 0 }

/-- `OPTIONAL_IMPROVEMENTS` from `app/config.py`. -/
structure OptionalImprovements where
  fire_blanket : ℚ
  emergency_lighting : ℚ
  carbon_monoxide_detector : ℚ
  security_camera : ℚ
  fire_alarm_system : ℚ
  emergency_evacuation_plan : ℚ

def OPTIONAL_IMPROVEMENTS : OptionalImprovements :=
  { fire_blanket := 80
    emergency_lighting := 120
    carbon_monoxide_detector := 90
    security_camera := 250
    fire_alarm_system := 800
    emergency_evacuation_plan := 150 }

/-- `SAFETY_THRESHOLDS` from `app/config.py` (the radius entries are unused
by the assessment computation itself). -/
structure SafetyThresholds where
  min_fire_extinguishers_per_floor : ℕ
  min_smoke_detectors_per_floor : ℕ
  min_emergency_exits : ℕ
  old_building_year : ℕ

def SAFETY_THRESHOLDS : SafetyThresholds :=
  { min_fire_extinguishers_per_floor := 1
    min_smoke_detectors_per_floor := 2
    min_emergency_exits := 2
    old_building_year := 1990 }

/-- `BUILDING_TYPE_MULTIPLIERS.get(bt, 1.0)` from `app/config.py` /
`app/safety.py` line 30. -/
def buildingTypeMultiplier (bt : String) : ℚ :=
  if bt = "modern" then 9/10
  else if bt = "traditional" then 1
  else if bt = "renovated" then 11/10
  else 1

/-- The guesthouse record as the engine reads it (`app/models.py` columns
used by `SafetyAssessment`).  `building_type` is `Option String`: `none`
models a missing / `None` column value. -/
structure GH where
  id : ℕ
  name : String
  construction_year : ℕ
  number_of_floors : ℕ
  number_of_rooms : ℕ
  fire_extinguishers : ℕ
  smoke_detectors : ℕ
  emergency_exits : ℕ
  has_first_aid_kit : Bool
  has_stair_handrails : Bool
  stairs_slip_resistant : Bool
  building_type : Option String
deriving DecidableEq

/-- `getattr(guesthouse, 'building_type', 'traditional') or 'traditional'`
(`app/safety.py` lines 29 and 256): `None` and the empty string (both falsy)
fall back to `"traditional"`. -/
def normBuildingType (bt : Option String) : String :=
  match bt with
  | none => "traditional"
  | some s => if s = "" then "traditional" else s

/-- `self.building_multiplier` set in `SafetyAssessment.__init__`. -/
def building_multiplier (g : GH) : ℚ :=
  buildingTypeMultiplier (normBuildingType g.building_type)

/-- `required_extinguishers` (`app/safety.py` line 69). -/
def required_extinguishers (g : GH) : ℕ :=
  g.number_of_floors * SAFETY_THRESHOLDS.min_fire_extinguishers_per_floor

/-- `extinguisher_deficit = max(0, required - actual)` (line 70); truncated
natural subtraction is exactly `max 0 (required - actual)`. -/
def extinguisher_deficit (g : GH) : ℕ :=
  required_extinguishers g - g.fire_extinguishers

/-- `required_detectors` (line 79). -/
def required_detectors (g : GH) : ℕ :=
  g.number_of_floors * SAFETY_THRESHOLDS.min_smoke_detectors_per_floor

/-- `detector_deficit` (line 80). -/
def detector_deficit (g : GH) : ℕ :=
  required_detectors g - g.smoke_detectors

/-- `exit_deficit` (line 89). -/
def exit_deficit (g : GH) : ℕ :=
  SAFETY_THRESHOLDS.min_emergency_exits - g.emergency_exits

/-- `items_to_add['handrails']` after the pass (line 110): set to
`floors - 1` only in the multi-floor, no-handrails branch. -/
def items_handrails (g : GH) : ℕ :=
  if g.number_of_floors > 1 ∧ ¬g.has_stair_handrails then g.number_of_floors - 1 else 0

/-- `items_to_add['slip_coating']` after the pass (line 116). -/
def items_slip_coating (g : GH) : Bool :=
  g.number_of_floors > 1 ∧ ¬g.stairs_slip_resistant

/-- `items_to_add['first_aid_kit']` after the pass (line 102). -/
def items_first_aid_kit (g : GH) : Bool :=
  ¬g.has_first_aid_kit

/-- The running `score` of `calculate_baseline_score` (lines 39-116, clamp
line 170): starts at 100, each check subtracts, final `max(0, score)`. -/
def baselineScore (g : GH) : ℤ :=
  let s0 : ℤ := 100
  let s1 := if g.construction_year < SAFETY_THRESHOLDS.old_building_year then s0 - 10 else s0
  let s2 := if extinguisher_deficit g > 0 then s1 - extinguisher_deficit g * 5 else s1
  let s3 := if detector_deficit g > 0 then s2 - detector_deficit g * 4 else s2
  let s4 := if exit_deficit g > 0 then s3 - exit_deficit g * 10 else s3
  let s5 := if ¬g.has_first_aid_kit then s4 - 8 else s4
  let s6 := if g.number_of_floors > 1 ∧ ¬g.has_stair_handrails then s5 - 8 else s5
  let s7 := if g.number_of_floors > 1 ∧ ¬g.stairs_slip_resistant then s6 - 6 else s6
  max 0 s7

/-- Risk-level bucketing used at lines 173-178 (and again for the final
score at lines 303-308). -/
def riskLevel (s : ℤ) : String :=
  if s ≥ 80 then "low" else if s ≥ 50 then "medium" else "high"

/-- The old-building issue string (line 65); `building_age` is
`current_year - construction_year` computed from `datetime.now().year`,
exposed here as the explicit argument `y`. -/
def ageIssue (g : GH) (y : ℕ) : String :=
  "Building is " ++ toString ((y : ℤ) - (g.construction_year : ℤ)) ++
    " years old (built before " ++ toString SAFETY_THRESHOLDS.old_building_year ++ ")"

/-- The `issues` list accumulated by `calculate_baseline_score`
(lines 63-116), before the empty-list fallback of line 183. -/
def baselineIssues (g : GH) (y : ℕ) : List String :=
  (if g.construction_year < SAFETY_THRESHOLDS.old_building_year then [ageIssue g y] else []) ++
  (if extinguisher_deficit g > 0 then
    ["Need " ++ toString (extinguisher_deficit g) ++ " more fire extinguisher(s)"] else []) ++
  (if detector_deficit g > 0 then
    ["Need " ++ toString (detector_deficit g) ++ " more smoke detector(s)"] else []) ++
  (if exit_deficit g > 0 then
    ["Need " ++ toString (exit_deficit g) ++ " more emergency exit(s)"] else []) ++
  (if ¬g.has_first_aid_kit then ["No first aid kit available"] else []) ++
  (if g.number_of_floors > 1 ∧ ¬g.has_stair_handrails then ["Stairs lack handrails"] else []) ++
  (if g.number_of_floors > 1 ∧ ¬g.stairs_slip_resistant then ["Stairs are not slip-resistant"] else [])

/-- The `recommendations` list accumulated by `calculate_baseline_score`
(lines 63-116), before the fallback of line 184. -/
def baselineRecommendations (g : GH) : List String :=
  (if g.construction_year < SAFETY_THRESHOLDS.old_building_year then
    ["Consider professional structural inspection for older buildings"] else []) ++
  (if extinguisher_deficit g > 0 then
    ["Add " ++ toString (extinguisher_deficit g) ++ " fire extinguisher(s) (minimum one per floor)"] else []) ++
  (if detector_deficit g > 0 then
    ["Install " ++ toString (detector_deficit g) ++ " smoke detector(s) (minimum " ++
      toString SAFETY_THRESHOLDS.min_smoke_detectors_per_floor ++ " per floor)"] else []) ++
  (if exit_deficit g > 0 then
    ["Add " ++ toString (exit_deficit g) ++ " clearly marked emergency exit(s) with illuminated signs"] else []) ++
  (if ¬g.has_first_aid_kit then
    ["Provide a well-stocked first aid kit in an accessible location"] else []) ++
  (if g.number_of_floors > 1 ∧ ¬g.has_stair_handrails then
    ["Install handrails on all staircases"] else []) ++
  (if g.number_of_floors > 1 ∧ ¬g.stairs_slip_resistant then
    ["Apply slip-resistant coating or install anti-slip strips on stairs"] else [])

/-- `equipment_cost` (lines 118-128).  The handrail line multiplies by the
assumed 3.5 m average run; the slip-coating line is
`handrails * cost if handrails > 0 else cost`. -/
def equipment_cost (g : GH) : ℚ :=
  extinguisher_deficit g * EQUIPMENT_COSTS.fire_extinguisher +
  detector_deficit g * EQUIPMENT_COSTS.smoke_detector +
  exit_deficit g * EQUIPMENT_COSTS.emergency_exit_sign +
  (if items_first_aid_kit g then EQUIPMENT_COSTS.first_aid_kit else 0) +
  (if items_handrails g > 0 then items_handrails g * EQUIPMENT_COSTS.stair_handrail * (7/2) else 0) +
  (if items_slip_coating g then
    (if items_handrails g > 0 then items_handrails g * EQUIPMENT_COSTS.slip_resistant_coating
     else EQUIPMENT_COSTS.slip_resistant_coating)
   else 0)

/-- `base_installation` (lines 131-138), before the building-type
multiplier. -/
def base_installation (g : GH) : ℚ :=
  extinguisher_deficit g * INSTALLATION_COSTS.fire_extinguisher +
  detector_deficit g * INSTALLATION_COSTS.smoke_detector +
  exit_deficit g * INSTALLATION_COSTS.emergency_exit_sign +
  (if items_handrails g > 0 then items_handrails g * INSTALLATION_COSTS.stair_handrail * (7/2) else 0) +
  (if items_slip_coating g then
    (if items_handrails g > 0 then items_handrails g * INSTALLATION_COSTS.slip_resistant_coating
     else INSTALLATION_COSTS.slip_resistant_coating)
   else 0)

/-- `installation_cost = round(base_installation * self.building_multiplier)`
(line 140): the only place the multiplier is applied. -/
def installation_cost (g : GH) : ℤ :=
  pyRound (base_installation g * building_multiplier g)

/-- `compliance_cost` (lines 142-147): charged only when `equipment_cost > 0`. -/
def compliance_cost (g : GH) : ℚ :=
  if equipment_cost g > 0 then
    COMPLIANCE_COSTS.fire_safety_inspection + COMPLIANCE_COSTS.safety_certification
  else 0

/-- `annual_maintenance` (lines 149-164), over existing plus newly added
equipment, plus the fixed annual fire inspection. -/
def annual_maintenance (g : GH) : ℚ :=
  (g.fire_extinguishers + extinguisher_deficit g) * MAINTENANCE_COSTS.fire_extinguisher +
  (g.smoke_detectors + detector_deficit g) * MAINTENANCE_COSTS.smoke_detector +
  (g.emergency_exits + exit_deficit g) * MAINTENANCE_COSTS.emergency_exit_sign +
  (if g.has_first_aid_kit ∨ items_first_aid_kit g then MAINTENANCE_COSTS.first_aid_kit else 0) +
  (if g.has_stair_handrails ∨ items_handrails g > 0 then
    (if items_handrails g > 0 then (items_handrails g : ℚ) else ((g.number_of_floors - 1 : ℕ) : ℚ)) *
      MAINTENANCE_COSTS.stair_handrail
   else 0) +
  COMPLIANCE_COSTS.annual_fire_inspection

/-- One entry of the optional-improvements list (lines 196-250). -/
structure OptionalItem where
  item : String
  reason : String
  cost_tnd : ℚ
deriving DecidableEq

/-- `_generate_optional_recommendations` (lines 196-250). -/
def optional_improvements (g : GH) : List OptionalItem :=
  [{ item := "Fire blanket", reason := "Kitchen fire suppression",
     cost_tnd := OPTIONAL_IMPROVEMENTS.fire_blanket }] ++
  (if g.number_of_floors > 1 then
    [{ item := "Emergency lighting",
       reason := "Battery backup lighting for safe evacuation during power outages",
       cost_tnd := OPTIONAL_IMPROVEMENTS.emergency_lighting * g.number_of_floors }] else []) ++
  [{ item := "Carbon monoxide detector",
     reason := "Detect dangerous gas from cooking appliances or heating",
     cost_tnd := OPTIONAL_IMPROVEMENTS.carbon_monoxide_detector }] ++
  (if g.number_of_rooms ≥ 6 then
    [{ item := "Centralized fire alarm system",
       reason := "Comprehensive alert system for larger properties",
       cost_tnd := OPTIONAL_IMPROVEMENTS.fire_alarm_system }] else []) ++
  (if g.number_of_floors > 1 ∨ g.number_of_rooms ≥ 5 then
    [{ item := "Emergency evacuation plan signage",
       reason := "Professional floor plans and evacuation route markers",
       cost_tnd := OPTIONAL_IMPROVEMENTS.emergency_evacuation_plan }] else []) ++
  (if g.number_of_rooms ≥ 4 then
    [{ item := "2 security cameras",
       reason := "Monitor entrance and common areas for guest security",
       cost_tnd := OPTIONAL_IMPROVEMENTS.security_camera * 2 }] else [])

/-- The traditional-construction note of `_get_building_notes` (line 259). -/
def traditionalNote : String :=
  "Traditional construction: Installation may require specialized techniques for stone/masonry walls"

/-- `_get_building_notes` (lines 252-274). -/
def building_notes (g : GH) : List String :=
  (let bt := normBuildingType g.building_type
   if bt = "traditional" then [traditionalNote]
   else if bt = "modern" then
     ["Modern construction: Standard installation procedures apply, slightly lower labor costs"]
   else if bt = "renovated" then
     ["Renovated building: Mixed construction may require varied installation approaches"]
   else []) ++
  (if g.construction_year < 1980 then
    ["Pre-1980 construction: Strongly recommend professional structural assessment"] else []) ++
  (if g.number_of_floors ≥ 3 then
    ["Multi-floor building: Consider additional fire safety measures and clear evacuation routes"] else []) ++
  (if g.number_of_rooms ≥ 8 then
    ["Larger property: May benefit from centralized fire alarm system"] else [])

/-- The dictionary returned by `calculate_baseline_score` (lines 180-194);
`cost_breakdown` is flattened into the fields `equipment` ..
`annual_maintenance_rounded`. -/
structure BaselineResult where
  baseline_score : ℤ
  risk_level : String
  issues : List String
  recommendations : List String
  equipment : ℤ
  installation_labor : ℤ
  compliance_inspection : ℚ
  total_one_time : ℤ
  annual_maintenance_rounded : ℤ
  optional_improvements : List OptionalItem
  building_notes : List String
deriving DecidableEq

/-- `SafetyAssessment.calculate_baseline_score` (lines 32-194).  `y` is
`datetime.now().year`, the only non-input the function reads. -/
def calculate_baseline_score (g : GH) (y : ℕ) : BaselineResult :=
  let score := baselineScore g
  let issues := baselineIssues g y
  let recs := baselineRecommendations g
  { baseline_score := score
    risk_level := riskLevel score
    issues := if issues.isEmpty then ["No major safety issues detected"] else issues
    recommendations :=
      if recs.isEmpty then ["Guesthouse meets baseline safety standards"] else recs
    equipment := pyRound (equipment_cost g)
    installation_labor := installation_cost g
    compliance_inspection := compliance_cost g
    total_one_time := pyRound (equipment_cost g + installation_cost g + compliance_cost g)
    annual_maintenance_rounded := pyRound (annual_maintenance g)
    optional_improvements := optional_improvements g
    building_notes := building_notes g }

/-- The weather reading assembled by `WeatherService.get_current_weather`
(`app/external_services.py` lines 40-46); the surrounding `Option` is the
`None` returned on a request failure (line 50). -/
structure WeatherData where
  temperature : ℚ
  precipitation : ℚ
  rain : ℚ
  wind_speed : ℚ
deriving DecidableEq

/-- Result of `WeatherService.analyze_weather_risks` (lines 52-110). -/
structure WeatherAnalysis where
  risk_level : String
  risk_score : ℕ
  recommendations : List String
deriving DecidableEq

/-- `WeatherService.analyze_weather_risks` (lines 52-110). -/
def analyze_weather_risks (w : Option WeatherData) : WeatherAnalysis :=
  match w with
  | none =>
    { risk_level := "unknown"
      risk_score := 0
      recommendations := ["Weather data unavailable"] }
  | some d =>
    let tempScore : ℕ := if d.temperature > 35 then 15 else if d.temperature < 5 then 10 else 0
    let tempRecs : List String :=
      if d.temperature > 35 then
        ["High temperature: Ensure adequate ventilation and provide water for guests"]
      else if d.temperature < 5 then
        ["Low temperature: Check heating systems and warn guests about cold conditions"]
      else []
    let rainScore : ℕ := if d.rain > 0 ∨ d.precipitation > 0 then 20 else 0
    let rainRecs : List String :=
      if d.rain > 0 ∨ d.precipitation > 0 then
        ["Rainy conditions: Place warning signs on stairs, check for water leaks, ensure walkways are dry"]
      else []
    let windScore : ℕ := if d.wind_speed > 30 then 25 else if d.wind_speed > 20 then 10 else 0
    let windRecs : List String :=
      if d.wind_speed > 30 then
        ["Strong winds: Secure outdoor furniture, close terrace/rooftop areas, warn guests"]
      else if d.wind_speed > 20 then
        ["Moderate winds: Check outdoor areas and secure loose items"]
      else []
    let riskScore := tempScore + rainScore + windScore
    let recs := tempRecs ++ rainRecs ++ windRecs
    { risk_level :=
        if riskScore ≥ 40 then "high" else if riskScore ≥ 20 then "medium" else "low"
      risk_score := riskScore
      recommendations := if recs.isEmpty then ["No weather-related risks detected"] else recs }

/-- The dictionary returned by `EmergencyFacilitiesService.find_nearby_facilities`
(lines 161-174): counts plus an optional `error` entry, present exactly when
the Overpass request failed. -/
structure FacilitiesData where
  hospitals : ℕ
  pharmacies : ℕ
  radius_km : ℕ
  error : Option String
deriving DecidableEq

/-- The value `find_nearby_facilities` returns when the Overpass request
raises (`app/external_services.py` lines 167-174): zero counts plus an
explicit error flag. -/
def find_nearby_facilities_failure (radius_km : ℕ) : FacilitiesData :=
  { hospitals := 0
    pharmacies := 0
    radius_km := radius_km
    error := some "Unable to fetch facility data" }

/-- Result of `EmergencyFacilitiesService.analyze_facility_access`
(lines 176-216). -/
structure FacilityAnalysis where
  risk_adjustment : ℕ
  recommendations : List String
deriving DecidableEq

/-- `EmergencyFacilitiesService.analyze_facility_access` (lines 176-216);
it reads only the two counts — the `error` entry is ignored. -/
def analyze_facility_access (f : FacilitiesData) : FacilityAnalysis :=
  let hospitalScore : ℕ := if f.hospitals = 0 then 20 else if f.hospitals = 1 then 10 else 0
  let hospitalRecs : List String :=
    if f.hospitals = 0 then
      ["No hospitals nearby: Consider providing emergency contact numbers and basic medical training for staff"]
    else if f.hospitals = 1 then
      ["Limited hospital access: Keep emergency contact information readily available"]
    else ["Good hospital access in the area"]
  let pharmacyScore : ℕ := if f.pharmacies = 0 then 10 else if f.pharmacies < 2 then 5 else 0
  let pharmacyRecs : List String :=
    if f.pharmacies = 0 then
      ["No pharmacies nearby: Maintain a well-stocked first aid kit with common medications"]
    else if f.pharmacies < 2 then
      ["Limited pharmacy access: Keep basic medical supplies on hand"]
    else ["Good pharmacy access in the area"]
  { risk_adjustment := hospitalScore + pharmacyScore
    recommendations := hospitalRecs ++ pharmacyRecs }

/-- `_complexity_description` (`app/safety.py` lines 380-387). -/
def complexity_description (g : GH) : String :=
  if building_multiplier g < 1 then "Lower complexity (modern construction, easier installation)"
  else if building_multiplier g > 1 then
    "Higher complexity (renovated structure, varied installation requirements)"
  else "Standard complexity (traditional construction)"

/-- The issues sentence of `_generate_explanation` (`app/safety.py`
lines 402-405): the truthiness test on `baseline['issues']` is emptiness. -/
def explanationIssuesFragment (issues : List String) : String :=
  if ¬issues.isEmpty then
    "We identified " ++ toString issues.length ++ " area(s) requiring improvement. "
  else "Your baseline safety standards are excellent. "

/-- The dictionary returned by `SafetyAssessment.calculate_final_score`
(lines 276-378), with the nested groups flattened to fields.
`assessment_date` (wall-clock timestamp) and the narrative `explanation`
string are omitted; the explanation branch the claims discuss is modelled by
`explanationIssuesFragment`. -/
structure FinalAssessment where
  guesthouse_id : ℕ
  guesthouse_name : String
  baseline_score : ℤ
  baseline_risk_level : String
  weather_risk_score : ℕ
  facility_risk_adjustment : ℕ
  final_score : ℚ
  final_risk_level : String
  issues_identified : List String
  mandatory_improvements : List String
  facilities_access : List String
  weather_today : List String
  optional_enhancements : List OptionalItem
  equipment_materials : ℤ
  installation_labor : ℤ
  compliance_inspections : ℚ
  total_one_time_investment : ℤ
  annual_maintenance : ℤ
  optional_total : ℚ
  minimum_investment : ℤ
  with_optional_improvements : ℚ
  first_year_total : ℤ
  building_context_type : Option String
  installation_complexity : String
  building_notes : List String
deriving DecidableEq

/-- The 80/50 risk-level bucketing applied to the clamped final score
(lines 303-308); the final score is a float there, hence a `ℚ` version. -/
def riskLevelQ (s : ℚ) : String :=
  if s ≥ 80 then "low" else if s ≥ 50 then "medium" else "high"

/-- The clamped final score of `calculate_final_score` (lines 288-300):
`max(0, min(100, baseline - weather_risk - facility_risk / 2))`. -/
def final_score_clamped (b : BaselineResult) (w : WeatherAnalysis) (f : FacilityAnalysis) : ℚ :=
  max 0 (min 100 ((b.baseline_score : ℚ) - (w.risk_score : ℚ) - (f.risk_adjustment : ℚ) / 2))

/-- `SafetyAssessment.calculate_final_score` (lines 276-378):
`final_score = max(0, min(100, baseline - weather_risk - facility_risk/2))`,
reported rounded to one decimal (`round(final_score, 1)`). -/
def calculate_final_score (g : GH) (b : BaselineResult) (w : WeatherAnalysis)
    (f : FacilityAnalysis) : FinalAssessment :=
  let weather_risk : ℕ := w.risk_score
  let facility_risk : ℕ := f.risk_adjustment
  let clamped : ℚ := final_score_clamped b w f
  let one_time := b.total_one_time
  let annual := b.annual_maintenance_rounded
  let optional_total := (b.optional_improvements.map OptionalItem.cost_tnd).sum
  { guesthouse_id := g.id
    guesthouse_name := g.name
    baseline_score := b.baseline_score
    baseline_risk_level := b.risk_level
    weather_risk_score := weather_risk
    facility_risk_adjustment := facility_risk
    final_score := (pyRound (10 * clamped) : ℚ) / 10
    final_risk_level := riskLevelQ clamped
    issues_identified := b.issues
    mandatory_improvements := b.recommendations
    facilities_access := f.recommendations
    weather_today := w.recommendations
    optional_enhancements := b.optional_improvements
    equipment_materials := b.equipment
    installation_labor := b.installation_labor
    compliance_inspections := b.compliance_inspection
    total_one_time_investment := one_time
    annual_maintenance := annual
    optional_total := optional_total
    minimum_investment := one_time
    with_optional_improvements := (one_time : ℚ) + optional_total
    first_year_total := one_time + annual
    building_context_type := g.building_type
    installation_complexity := complexity_description g
    building_notes := b.building_notes }

/-- Example 1 of the spec: a fully compliant single-floor modern property. -/
def exampleGH1 : GH :=
  { id := 1
    name := "Example guesthouse"
    construction_year := 2015
    number_of_floors := 1
    number_of_rooms := 3
    fire_extinguishers := 1
    smoke_detectors := 2
    emergency_exits := 2
    has_first_aid_kit := true
    has_stair_handrails := true
    stairs_slip_resistant := true
    building_type := some "modern" }

/-- `exampleGH1` built in 1980, i.e. before the old-building threshold. -/
def oldGH : GH := { exampleGH1 with construction_year := 1980 }

/-- `exampleGH1` with an unrecognized building type. -/
def iglooGH : GH := { exampleGH1 with building_type := some "igloo" }

/-- `exampleGH1` with a missing (`None`) building type. -/
def noneBtGH : GH := { exampleGH1 with building_type := none }

/-- A three-floor property lacking handrails and slip-resistant stairs. -/
def multiFloorGH : GH :=
  { exampleGH1 with
      number_of_floors := 3
      has_stair_handrails := false
      stairs_slip_resistant := false }

/-- A confirmed facility reading: two hospitals and two pharmacies,
obtained without error. -/
def confirmedFacilities : FacilitiesData :=
  { hospitals := 2, pharmacies := 2, radius_km := 5, error := none }

/-- The property's `building_type` is absent (`None`) or not one of the three
recognized values. -/
def BTUnrecognized (bt : Option String) : Prop :=
  match bt with
  | none => True
  | some s => s ∉ (["modern", "traditional", "renovated"] : List String)

/-! ### Helper lemmas -/

theorem pyRound_nonneg {x : ℚ} (hx : 0 ≤ x) : 0 ≤ pyRound x := by
  have h0 : (0 : ℤ) ≤ ⌊x⌋ := Int.floor_nonneg.mpr hx
  unfold pyRound
  split_ifs <;> omega

theorem pyRound_le {x : ℚ} {n : ℤ} (h : x ≤ (n : ℚ)) : pyRound x ≤ n := by
  have hfl : ⌊x⌋ ≤ n := by
    have h2 := Int.floor_le_floor h
    simpa using h2
  have hkey : ⌊x⌋ = n → x - (⌊x⌋ : ℚ) ≤ 0 := by
    intro he
    rw [he]
    linarith
  unfold pyRound
  split_ifs with h1 h2 h3
  · exact hfl
  · rcases lt_or_eq_of_le hfl with hlt | heq
    · omega
    · exact absurd (hkey heq) (by linarith)
  · exact hfl
  · rcases lt_or_eq_of_le hfl with hlt | heq
    · omega
    · have hge : 1/2 ≤ x - (⌊x⌋ : ℚ) := le_of_not_lt h1
      exact absurd (hkey heq) (by linarith)

theorem pyRound_intCast (n : ℤ) : pyRound (n : ℚ) = n := by
  unfold pyRound
  rw [Int.floor_intCast]
  simp

theorem ite_sub_deficit (s : ℤ) (d : ℕ) (k : ℤ) :
    (if d > 0 then s - d * k else s) = s - d * k := by
  split_ifs with h
  · rfl
  · have hd : d = 0 := by omega
    simp [hd]

/-- Closed form of the running baseline score: 100 minus the sum of the
per-check deductions, clamped at zero. -/
theorem baselineScore_closed (g : GH) :
    baselineScore g = max 0 (100 -
      ((if g.construction_year < SAFETY_THRESHOLDS.old_building_year then (10 : ℤ) else 0) +
       5 * extinguisher_deficit g + 4 * detector_deficit g + 10 * exit_deficit g +
       (if g.has_first_aid_kit then 0 else 8) +
       (if g.number_of_floors > 1 ∧ ¬g.has_stair_handrails then 8 else 0) +
       (if g.number_of_floors > 1 ∧ ¬g.stairs_slip_resistant then 6 else 0))) := by
  unfold baselineScore
  dsimp only
  rw [ite_sub_deficit, ite_sub_deficit, ite_sub_deficit]
  split_ifs <;> omega

theorem max_sub_le_max_sub {a b : ℤ} (h : a ≤ b) : max 0 (100 - b) ≤ max 0 (100 - a) := by
  omega

theorem final_score_eq (g : GH) (b : BaselineResult) (w : WeatherAnalysis) (f : FacilityAnalysis) :
    (calculate_final_score g b w f).final_score =
      (pyRound (10 * final_score_clamped b w f) : ℚ) / 10 := rfl

theorem final_score_clamped_bounds (b : BaselineResult) (w : WeatherAnalysis)
    (f : FacilityAnalysis) :
    0 ≤ final_score_clamped b w f ∧ final_score_clamped b w f ≤ 100 :=
  ⟨le_max_left _ _, max_le (by norm_num) (min_le_left _ _)⟩

/-! ### The claims -/

/-- Claim C1: for every property input the baseline score returned by
`calculate_baseline_score` lies in `[0, 100]` (each adjustment step only
subtracts points, and the result is clamped below at 0), and for every
baseline result and weather/facility analysis the final score returned by
`calculate_final_score` lies in `[0, 100]`. -/
theorem scores_in_range (g : GH) (y : ℕ) (b : BaselineResult)
    (w : WeatherAnalysis) (f : FacilityAnalysis) :
    0 ≤ (calculate_baseline_score g y).baseline_score ∧
    (calculate_baseline_score g y).baseline_score ≤ 100 ∧
    0 ≤ (calculate_final_score g b w f).final_score ∧
    (calculate_final_score g b w f).final_score ≤ 100 := by
  obtain ⟨hc0, hc100⟩ := final_score_clamped_bounds b w f
  refine ⟨?_, ?_, ?_, ?_⟩
  · show (0 : ℤ) ≤ baselineScore g
    rw [baselineScore_closed]
    exact le_max_left _ _
  · show baselineScore g ≤ 100
    rw [baselineScore_closed]
    have h1 : (0 : ℤ) ≤ (extinguisher_deficit g : ℤ) := Int.natCast_nonneg _
    have h2 : (0 : ℤ) ≤ (detector_deficit g : ℤ) := Int.natCast_nonneg _
    have h3 : (0 : ℤ) ≤ (exit_deficit g : ℤ) := Int.natCast_nonneg _
    split_ifs <;> omega
  · rw [final_score_eq]
    have hp : 0 ≤ pyRound (10 * final_score_clamped b w f) := pyRound_nonneg (by linarith)
    have hq : (0 : ℚ) ≤ (pyRound (10 * final_score_clamped b w f) : ℚ) := by exact_mod_cast hp
    linarith
  · rw [final_score_eq]
    have hp : pyRound (10 * final_score_clamped b w f) ≤ 1000 := by
      apply pyRound_le
      push_cast
      linarith
    have hq : (pyRound (10 * final_score_clamped b w f) : ℚ) ≤ 1000 := by exact_mod_cast hp
    linarith

/-- Claim C2, counterexample: `calculate_baseline_score` is not a function of
the property record and configuration alone.  For a property built in 1980
the old-building issue string embeds the building age computed from
`datetime.now().year`, so two calls with identical property and config but
clock years 2025 and 2026 return different issue lists. -/
theorem baseline_depends_on_clock_year :
    (calculate_baseline_score oldGH 2025).issues ≠ (calculate_baseline_score oldGH 2026).issues := by
  decide

/-- Claim C2 (amended): `calculate_baseline_score` is a deterministic
function of the property record, the configuration, and the current clock
year.  Every field except the issues list depends only on the property and
configuration, and for properties built in or after the old-building
threshold year the whole result (issues included) is independent of the
clock year, so two calls with identical inputs in the same year are
identical in every field. -/
theorem baseline_deterministic_given_year (g : GH) (y₁ y₂ : ℕ) :
    ((calculate_baseline_score g y₁).baseline_score =
        (calculate_baseline_score g y₂).baseline_score ∧
     (calculate_baseline_score g y₁).risk_level = (calculate_baseline_score g y₂).risk_level ∧
     (calculate_baseline_score g y₁).recommendations =
        (calculate_baseline_score g y₂).recommendations ∧
     (calculate_baseline_score g y₁).equipment = (calculate_baseline_score g y₂).equipment ∧
     (calculate_baseline_score g y₁).installation_labor =
        (calculate_baseline_score g y₂).installation_labor ∧
     (calculate_baseline_score g y₁).compliance_inspection =
        (calculate_baseline_score g y₂).compliance_inspection ∧
     (calculate_baseline_score g y₁).total_one_time =
        (calculate_baseline_score g y₂).total_one_time ∧
     (calculate_baseline_score g y₁).annual_maintenance_rounded =
        (calculate_baseline_score g y₂).annual_maintenance_rounded ∧
     (calculate_baseline_score g y₁).optional_improvements =
        (calculate_baseline_score g y₂).optional_improvements ∧
     (calculate_baseline_score g y₁).building_notes =
        (calculate_baseline_score g y₂).building_notes) ∧
    (SAFETY_THRESHOLDS.old_building_year ≤ g.construction_year →
      calculate_baseline_score g y₁ = calculate_baseline_score g y₂) := by
  constructor
  · exact ⟨rfl, rfl, rfl, rfl, rfl, rfl, rfl, rfl, rfl, rfl⟩
  · intro h
    have hI : baselineIssues g y₁ = baselineIssues g y₂ := by
      unfold baselineIssues
      rw [if_neg (Nat.not_lt.mpr h), if_neg (Nat.not_lt.mpr h)]
    unfold calculate_baseline_score
    rw [hI]

theorem baseline_deterministic_given_year_witness :
    SAFETY_THRESHOLDS.old_building_year ≤ exampleGH1.construction_year ∧
    calculate_baseline_score exampleGH1 2025 = calculate_baseline_score exampleGH1 2026 :=
  ⟨by decide, (baseline_deterministic_given_year exampleGH1 2025 2026).2 (by decide)⟩

/-- Claim C5: for the fully compliant single-floor Example 1 property under
the default cost configuration, the baseline score is 100, the issues list is
the placeholder, equipment, installation and compliance costs are 0, and the
annual maintenance is `1*15 + 2*8 + 2*10 + 50 + 100 = 201` (the handrail
maintenance term is zero because `floors - 1 = 0`), for any clock year. -/
theorem example1_baseline (y : ℕ) :
    (calculate_baseline_score exampleGH1 y).baseline_score = 100 ∧
    (calculate_baseline_score exampleGH1 y).issues = ["No major safety issues detected"] ∧
    (calculate_baseline_score exampleGH1 y).equipment = 0 ∧
    (calculate_baseline_score exampleGH1 y).installation_labor = 0 ∧
    (calculate_baseline_score exampleGH1 y).compliance_inspection = 0 ∧
    (calculate_baseline_score exampleGH1 y).annual_maintenance_rounded = 201 := by
  have heq : equipment_cost exampleGH1 = 0 := by
    norm_num [equipment_cost, exampleGH1, extinguisher_deficit, required_extinguishers,
      detector_deficit, required_detectors, exit_deficit, items_first_aid_kit,
      items_handrails, items_slip_coating, SAFETY_THRESHOLDS, EQUIPMENT_COSTS]
  have hbase : base_installation exampleGH1 = 0 := by
    norm_num [base_installation, exampleGH1, extinguisher_deficit, required_extinguishers,
      detector_deficit, required_detectors, exit_deficit, items_handrails, items_slip_coating,
      SAFETY_THRESHOLDS, INSTALLATION_COSTS]
  have hcomp : compliance_cost exampleGH1 = 0 := by
    rw [compliance_cost, heq]
    norm_num
  have hann : annual_maintenance exampleGH1 = 201 := by
    norm_num [annual_maintenance, exampleGH1, extinguisher_deficit, required_extinguishers,
      detector_deficit, required_detectors, exit_deficit, items_first_aid_kit, items_handrails,
      SAFETY_THRESHOLDS, MAINTENANCE_COSTS, COMPLIANCE_COSTS]
  refine ⟨rfl, rfl, ?_, ?_, hcomp, ?_⟩
  · show pyRound (equipment_cost exampleGH1) = 0
    rw [heq]
    simpa using pyRound_intCast 0
  · show pyRound (base_installation exampleGH1 * building_multiplier exampleGH1) = 0
    rw [hbase, zero_mul]
    simpa using pyRound_intCast 0
  · show pyRound (annual_maintenance exampleGH1) = 201
    rw [hann]
    simpa using pyRound_intCast 201

/-- Claim C6: two property records differing only in `building_type` get
identical equipment, compliance and annual-maintenance figures from
`calculate_baseline_score`; the pre-multiplier installation sum is the same
for both, the reported installation labor equals
`round(base_installation * multiplier)`, and the one-time total differs only
through that installation figure — the multiplier enters nowhere else. -/
theorem multiplier_only_affects_installation (g : GH) (bt : Option String) (y : ℕ) :
    (calculate_baseline_score { g with building_type := bt } y).equipment =
      (calculate_baseline_score g y).equipment ∧
    (calculate_baseline_score { g with building_type := bt } y).compliance_inspection =
      (calculate_baseline_score g y).compliance_inspection ∧
    (calculate_baseline_score { g with building_type := bt } y).annual_maintenance_rounded =
      (calculate_baseline_score g y).annual_maintenance_rounded ∧
    base_installation { g with building_type := bt } = base_installation g ∧
    (calculate_baseline_score { g with building_type := bt } y).installation_labor =
      pyRound (base_installation g * buildingTypeMultiplier (normBuildingType bt)) ∧
    (calculate_baseline_score { g with building_type := bt } y).total_one_time =
      pyRound (equipment_cost g +
        ((calculate_baseline_score { g with building_type := bt } y).installation_labor : ℚ) +
        compliance_cost g) :=
  ⟨rfl, rfl, rfl, rfl, rfl, rfl⟩

/-- Claim C7: the baseline score is monotone in deficiencies — lowering the
fire-extinguisher, smoke-detector or emergency-exit count, or switching
`has_first_aid_kit`, `has_stair_handrails` or `stairs_slip_resistant` from
true to false, never increases the baseline score. -/
theorem baseline_score_monotone (g : GH) (y : ℕ) (e d x : ℕ) :
    (e ≤ g.fire_extinguishers →
      (calculate_baseline_score { g with fire_extinguishers := e } y).baseline_score ≤
        (calculate_baseline_score g y).baseline_score) ∧
    (d ≤ g.smoke_detectors →
      (calculate_baseline_score { g with smoke_detectors := d } y).baseline_score ≤
        (calculate_baseline_score g y).baseline_score) ∧
    (x ≤ g.emergency_exits →
      (calculate_baseline_score { g with emergency_exits := x } y).baseline_score ≤
        (calculate_baseline_score g y).baseline_score) ∧
    ((calculate_baseline_score { g with has_first_aid_kit := false } y).baseline_score ≤
      (calculate_baseline_score g y).baseline_score) ∧
    ((calculate_baseline_score { g with has_stair_handrails := false } y).baseline_score ≤
      (calculate_baseline_score g y).baseline_score) ∧
    ((calculate_baseline_score { g with stairs_slip_resistant := false } y).baseline_score ≤
      (calculate_baseline_score g y).baseline_score) := by
  refine ⟨?_, ?_, ?_, ?_, ?_, ?_⟩
  · intro h
    show baselineScore { g with fire_extinguishers := e } ≤ baselineScore g
    rw [baselineScore_closed, baselineScore_closed]
    apply max_sub_le_max_sub
    simp only [extinguisher_deficit, required_extinguishers, detector_deficit,
      required_detectors, exit_deficit, SAFETY_THRESHOLDS]
    split_ifs <;> omega
  · intro h
    show baselineScore { g with smoke_detectors := d } ≤ baselineScore g
    rw [baselineScore_closed, baselineScore_closed]
    apply max_sub_le_max_sub
    simp only [extinguisher_deficit, required_extinguishers, detector_deficit,
      required_detectors, exit_deficit, SAFETY_THRESHOLDS]
    split_ifs <;> omega
  · intro h
    show baselineScore { g with emergency_exits := x } ≤ baselineScore g
    rw [baselineScore_closed, baselineScore_closed]
    apply max_sub_le_max_sub
    simp only [extinguisher_deficit, required_extinguishers, detector_deficit,
      required_detectors, exit_deficit, SAFETY_THRESHOLDS]
    split_ifs <;> omega
  · show baselineScore { g with has_first_aid_kit := false } ≤ baselineScore g
    rw [baselineScore_closed, baselineScore_closed]
    apply max_sub_le_max_sub
    simp only [extinguisher_deficit, required_extinguishers, detector_deficit,
      required_detectors, exit_deficit, SAFETY_THRESHOLDS, Bool.false_eq_true,
      not_false_eq_true, and_true, if_false]
    split_ifs <;> omega
  · show baselineScore { g with has_stair_handrails := false } ≤ baselineScore g
    rw [baselineScore_closed, baselineScore_closed]
    apply max_sub_le_max_sub
    simp only [extinguisher_deficit, required_extinguishers, detector_deficit,
      required_detectors, exit_deficit, SAFETY_THRESHOLDS, Bool.false_eq_true,
      not_false_eq_true, and_true, if_false]
    split_ifs <;> omega
  · show baselineScore { g with stairs_slip_resistant := false } ≤ baselineScore g
    rw [baselineScore_closed, baselineScore_closed]
    apply max_sub_le_max_sub
    simp only [extinguisher_deficit, required_extinguishers, detector_deficit,
      required_detectors, exit_deficit, SAFETY_THRESHOLDS, Bool.false_eq_true,
      not_false_eq_true, and_true, if_false]
    split_ifs <;> omega

theorem baseline_score_monotone_witness :
    0 ≤ exampleGH1.fire_extinguishers ∧
    (calculate_baseline_score { exampleGH1 with fire_extinguishers := 0 } 2025).baseline_score ≤
      (calculate_baseline_score exampleGH1 2025).baseline_score :=
  ⟨Nat.zero_le _, (baseline_score_monotone exampleGH1 2025 0 0 0).1 (Nat.zero_le _)⟩

/-- Claim C8: when slip coating is needed (`floors > 1` and stairs not
slip-resistant), its contribution to the equipment cost and to the
pre-multiplier installation sum is `handrail_runs * coating_cost` when
handrails are also being added (no existing handrails, so
`handrail_runs = floors - 1 > 0`), and a single flat coating cost
otherwise. -/
theorem slip_coating_cost_rule (g : GH) (h1 : g.number_of_floors > 1)
    (h2 : g.stairs_slip_resistant = false) :
    equipment_cost g = equipment_cost { g with stairs_slip_resistant := true } +
      (if g.has_stair_handrails then EQUIPMENT_COSTS.slip_resistant_coating
       else ((g.number_of_floors - 1 : ℕ) : ℚ) * EQUIPMENT_COSTS.slip_resistant_coating) ∧
    base_installation g = base_installation { g with stairs_slip_resistant := true } +
      (if g.has_stair_handrails then INSTALLATION_COSTS.slip_resistant_coating
       else ((g.number_of_floors - 1 : ℕ) : ℚ) * INSTALLATION_COSTS.slip_resistant_coating) := by
  cases hhr : g.has_stair_handrails with
  | false =>
    have hpos : g.number_of_floors - 1 > 0 := by omega
    constructor
    · simp [equipment_cost, items_slip_coating, items_handrails, items_first_aid_kit,
        extinguisher_deficit, required_extinguishers, detector_deficit, required_detectors,
        exit_deficit, h1, h2, hhr, hpos]
    · simp [base_installation, items_slip_coating, items_handrails,
        extinguisher_deficit, required_extinguishers, detector_deficit, required_detectors,
        exit_deficit, h1, h2, hhr, hpos]
  | true =>
    constructor
    · simp [equipment_cost, items_slip_coating, items_handrails, items_first_aid_kit,
        extinguisher_deficit, required_extinguishers, detector_deficit, required_detectors,
        exit_deficit, h1, h2, hhr]
    · simp [base_installation, items_slip_coating, items_handrails,
        extinguisher_deficit, required_extinguishers, detector_deficit, required_detectors,
        exit_deficit, h1, h2, hhr]

theorem slip_coating_cost_rule_witness :
    multiFloorGH.number_of_floors > 1 ∧ multiFloorGH.stairs_slip_resistant = false ∧
    (equipment_cost multiFloorGH =
        equipment_cost { multiFloorGH with stairs_slip_resistant := true } +
        (if multiFloorGH.has_stair_handrails then EQUIPMENT_COSTS.slip_resistant_coating
         else ((multiFloorGH.number_of_floors - 1 : ℕ) : ℚ) * EQUIPMENT_COSTS.slip_resistant_coating) ∧
     base_installation multiFloorGH =
        base_installation { multiFloorGH with stairs_slip_resistant := true } +
        (if multiFloorGH.has_stair_handrails then INSTALLATION_COSTS.slip_resistant_coating
         else ((multiFloorGH.number_of_floors - 1 : ℕ) : ℚ) * INSTALLATION_COSTS.slip_resistant_coating)) :=
  ⟨by decide, rfl, slip_coating_cost_rule multiFloorGH (by decide) rfl⟩

/-- Claim C9: the issues list of `calculate_baseline_score` is never empty —
with no deficiency it is the one-element placeholder — so the explanation
always takes the "identified N area(s) requiring improvement" branch with
`N ≥ 1` and the "excellent" branch is unreachable; even a fully compliant
property is described as having one area requiring improvement. -/
theorem issues_never_empty (g : GH) (y : ℕ) :
    (calculate_baseline_score g y).issues ≠ [] ∧
    1 ≤ (calculate_baseline_score g y).issues.length ∧
    explanationIssuesFragment (calculate_baseline_score g y).issues =
      "We identified " ++ toString (calculate_baseline_score g y).issues.length ++
        " area(s) requiring improvement. " ∧
    (baselineIssues g y = [] →
      (calculate_baseline_score g y).issues = ["No major safety issues detected"]) := by
  have hiss : (calculate_baseline_score g y).issues =
      (if (baselineIssues g y).isEmpty then ["No major safety issues detected"]
       else baselineIssues g y) := rfl
  by_cases hraw : (baselineIssues g y).isEmpty
  · rw [hiss, if_pos hraw]
    exact ⟨by simp, by simp, rfl, fun _ => rfl⟩
  · rw [hiss, if_neg hraw]
    have hne : baselineIssues g y ≠ [] := by
      simpa [List.isEmpty_iff] using hraw
    refine ⟨hne, ?_, ?_, ?_⟩
    · have := List.length_pos.mpr hne
      omega
    · unfold explanationIssuesFragment
      rw [if_pos hraw]
    · intro h0
      exact absurd (by simp [h0]) hraw

theorem issues_never_empty_witness :
    baselineIssues exampleGH1 2025 = [] ∧
    (calculate_baseline_score exampleGH1 2025).issues = ["No major safety issues detected"] ∧
    explanationIssuesFragment (calculate_baseline_score exampleGH1 2025).issues =
      "We identified 1 area(s) requiring improvement. " :=
  ⟨by decide, (issues_never_empty exampleGH1 2025).2.2.2 (by decide), by decide⟩

/-- Claim C10: for every weather input, present or absent,
`analyze_weather_risks` returns a risk score between 0 and 60 (heat 15 +
rain 20 + strong wind 25; the cold and moderate-wind branches are exclusive
with those), tighter than the 0-100 range the interface allows. -/
theorem weather_risk_score_bounded (w : Option WeatherData) :
    0 ≤ (analyze_weather_risks w).risk_score ∧ (analyze_weather_risks w).risk_score ≤ 60 := by
  refine ⟨Nat.zero_le _, ?_⟩
  cases w with
  | none => decide
  | some dta =>
    show (if dta.temperature > 35 then 15 else if dta.temperature < 5 then 10 else 0) +
        (if dta.rain > 0 ∨ dta.precipitation > 0 then 20 else 0) +
        (if dta.wind_speed > 30 then 25 else if dta.wind_speed > 20 then 10 else 0) ≤ 60
    split_ifs <;> norm_num

/-- Claim C3, counterexample: the facility-fetch failure sentinel (zero
counts plus the explicit error flag) does NOT get a zero risk contribution:
`analyze_facility_access` ignores the error flag, returns
`risk_adjustment = 30 ≠ 0`, and scores the failure sentinel exactly like a
confirmed zero count of facilities. -/
theorem facility_error_scored_like_zero :
    (analyze_facility_access (find_nearby_facilities_failure 5)).risk_adjustment ≠ 0 ∧
    analyze_facility_access (find_nearby_facilities_failure 5) =
      analyze_facility_access
        { hospitals := 0, pharmacies := 0, radius_km := 5, error := none } :=
  ⟨by decide, rfl⟩

/-- Claim C3 (amended): when the facility fetch fails, the result carries
zero counts and the explicit error flag, and that flag is still visible to
the caller; but `analyze_facility_access` ignores the flag, so the failure
sentinel is scored exactly like a confirmed zero count — risk_adjustment 30,
contributing a 15-point deduction (30 / 2) to the final score rather than
zero. -/
theorem facility_error_flag_reported (r : ℕ) (g : GH) (b : BaselineResult)
    (w : WeatherAnalysis) :
    (find_nearby_facilities_failure r).hospitals = 0 ∧
    (find_nearby_facilities_failure r).pharmacies = 0 ∧
    (find_nearby_facilities_failure r).error = some "Unable to fetch facility data" ∧
    analyze_facility_access (find_nearby_facilities_failure r) =
      analyze_facility_access
        { hospitals := 0, pharmacies := 0, radius_km := r, error := none } ∧
    (analyze_facility_access (find_nearby_facilities_failure r)).risk_adjustment = 30 ∧
    (calculate_final_score g b w
        (analyze_facility_access (find_nearby_facilities_failure r))).final_score =
      (pyRound (10 * max 0 (min 100 ((b.baseline_score : ℚ) - (w.risk_score : ℚ) - 15))) : ℚ)
        / 10 := by
  refine ⟨rfl, rfl, rfl, rfl, rfl, ?_⟩
  rw [final_score_eq]
  have hc : final_score_clamped b w (analyze_facility_access (find_nearby_facilities_failure r)) =
      max 0 (min 100 ((b.baseline_score : ℚ) - (w.risk_score : ℚ) - 15)) := by
    unfold final_score_clamped
    norm_num [analyze_facility_access, find_nearby_facilities_failure]
  rw [hc]

/-- The traditional-construction note appears in `_get_building_notes`
output exactly when the normalized building type is "traditional". -/
theorem traditionalNote_mem_iff (g : GH) :
    traditionalNote ∈ building_notes g ↔
      normBuildingType g.building_type = "traditional" := by
  unfold building_notes
  by_cases h1 : normBuildingType g.building_type = "traditional"
  · simp [h1]
  · rw [if_neg h1]
    constructor
    · intro hmem
      exfalso
      revert hmem
      split_ifs <;> decide
    · intro hc
      exact absurd hc h1

/-- Claim C4, counterexample: a property with the unrecognized building type
"igloo" is NOT treated as "traditional" in every output: the installation
multiplier is 1.0, but the building notes do not contain the
traditional-construction note, and `building_context.type` reports "igloo",
not "traditional". -/
theorem unknown_building_type_not_traditional_everywhere :
    building_multiplier iglooGH = 1 ∧
    traditionalNote ∉ building_notes iglooGH ∧
    (calculate_final_score iglooGH (calculate_baseline_score iglooGH 2025)
        (analyze_weather_risks none)
        (analyze_facility_access confirmedFacilities)).building_context_type ≠
      some "traditional" := by
  exact ⟨rfl, by decide, by decide⟩

/-- Claim C4 (amended): for a property whose `building_type` is absent or
unrecognized, the installation multiplier is 1.0; but the
traditional-construction note appears in the building notes only when the
stored value is absent or the empty string (the values that normalize to
"traditional"), not for other unrecognized values, and
`building_context.type` reports the stored value unchanged (absent reported
as null), not "traditional". -/
theorem unknown_building_type_normalization (g : GH) (b : BaselineResult)
    (w : WeatherAnalysis) (f : FacilityAnalysis) (h : BTUnrecognized g.building_type) :
    building_multiplier g = 1 ∧
    (traditionalNote ∈ building_notes g ↔
      (g.building_type = none ∨ g.building_type = some "")) ∧
    (calculate_final_score g b w f).building_context_type = g.building_type := by
  refine ⟨?_, ?_, rfl⟩
  · unfold building_multiplier
    rcases hbt : g.building_type with _ | s
    · decide
    · rw [hbt] at h
      unfold BTUnrecognized at h
      simp at h
      obtain ⟨hm, ht, hr⟩ := h
      by_cases he : s = ""
      · rw [he]
        decide
      · show buildingTypeMultiplier (if s = "" then "traditional" else s) = 1
        rw [if_neg he]
        unfold buildingTypeMultiplier
        rw [if_neg hm, if_neg ht, if_neg hr]
  · rw [traditionalNote_mem_iff]
    rcases hbt : g.building_type with _ | s
    · simp [normBuildingType]
    · rw [hbt] at h
      unfold BTUnrecognized at h
      simp at h
      obtain ⟨hm, ht, hr⟩ := h
      by_cases he : s = ""
      · simp [normBuildingType, he]
      · simp [normBuildingType, he, ht]

theorem unknown_building_type_normalization_witness :
    BTUnrecognized noneBtGH.building_type ∧
    (building_multiplier noneBtGH = 1 ∧
     (traditionalNote ∈ building_notes noneBtGH ↔
       (noneBtGH.building_type = none ∨ noneBtGH.building_type = some "")) ∧
     (calculate_final_score noneBtGH (calculate_baseline_score noneBtGH 2025)
        (analyze_weather_risks none)
        (analyze_facility_access confirmedFacilities)).building_context_type =
       noneBtGH.building_type) :=
  ⟨by trivial,
   unknown_building_type_normalization noneBtGH (calculate_baseline_score noneBtGH 2025)
     (analyze_weather_risks none) (analyze_facility_access confirmedFacilities) (by trivial)⟩

end Guesthouse
